import Mathlib

/-!
Verification development for the `asv::Utilities` parameter-accessor module of
wave_sim_vrx (`src/wave_gazebo_plugins/include/wave_gazebo_plugins/Utilities.hh`).

The header declares twelve static lookup operations: six `SdfParam*` operations
reading a named child of an SDF element tree, and six `MsgParam*` operations
scanning a `gazebo::msgs::Param_V` parameter list.  The repository snapshot
contains only the header (declarations); the implementation bodies are modelled
from the specification, as noted on each definition.  Doubles are modelled as
rationals; `size_t` as `Nat`.
-/

set_option autoImplicit false

namespace asv

/-! ## Value types -/

/-- Modelled from the spec: the opaque 2-component vector value type
(`ignition::math::Vector2d`), components named `x`, `y`. -/
structure Vector2 where
  x : Rat
  y : Rat
deriving DecidableEq, Repr

/-- Modelled from the spec: the opaque 3-component vector value type
(`ignition::math::Vector3d`), components named `x`, `y`, `z`. -/
structure Vector3 where
  x : Rat
  y : Rat
  z : Rat
deriving DecidableEq, Repr

/-! ## Tree source (`sdf::Element`) -/

/-- Modelled from the spec: one node of the hierarchical scene-description
document (`sdf::Element`): a name, an ordered list of named child nodes, and
scalar text content. -/
inductive Element where
  | node (name : String) (children : List Element) (text : String)

/-- Name of an element node. -/
def Element.name : Element → String
  | .node n _ _ => n

/-- Children of an element node, in document order. -/
def Element.children : Element → List Element
  | .node _ c _ => c

/-- Scalar text content of an element node. -/
def Element.text : Element → String
  | .node _ _ t => t

/-! ## Textual decoding

Modelled from the spec: each lookup uses an internal try-parse step that either
produces a valid value or signals use-the-default through `Option`. -/

/-- Lower-cases every character of a string (used for the case-insensitive
boolean token match). -/
def toLowerStr (s : String) : String :=
  ⟨s.data.map Char.toLower⟩

/-- Modelled from the spec: boolean text decoding.  The content must
case-insensitively match a recognized truthy/falsy token set
("true"/"false", "1"/"0"); unrecognized content signals use-the-default. -/
def parseBool (s : String) : Option Bool :=
  if toLowerStr s = "true" ∨ toLowerStr s = "1" then some true
  else if toLowerStr s = "false" ∨ toLowerStr s = "0" then some false
  else none

/-- Value of a list of decimal digit characters, most significant first. -/
def digitsVal (cs : List Char) : Nat :=
  cs.foldl (fun a c => 10 * a + (c.toNat - 48)) 0

/-- Parses a nonempty all-digit character list as a natural number. -/
def parseDigits (cs : List Char) : Option Nat :=
  if cs ≠ [] ∧ cs.all Char.isDigit = true then some (digitsVal cs) else none

/-- Modelled from the spec: unsigned-size text decoding.  The content must
parse as a non-negative integer (optional leading `+`, then digits); negative
or non-numeric content signals use-the-default. -/
def parseSizeT (s : String) : Option Nat :=
  match s.data with
  | '+' :: rest => parseDigits rest
  | cs => parseDigits cs

/-- Parses the digits of a decimal exponent (optional sign, then digits,
nothing trailing) and applies it to `base`. -/
def parseExpDigits (base : Rat) (cs : List Char) : Option Rat :=
  let signed : Bool × List Char :=
    match cs with
    | '-' :: r => (true, r)
    | '+' :: r => (false, r)
    | r => (false, r)
  let ds := signed.2.takeWhile Char.isDigit
  let rest := signed.2.dropWhile Char.isDigit
  if ds = [] ∨ rest ≠ [] then none
  else if signed.1 then some (base / 10 ^ digitsVal ds)
  else some (base * 10 ^ digitsVal ds)

/-- Parses an optional exponent part (`e`/`E`, sign, digits) after `base`;
an empty remainder yields `base` itself, anything else is malformed. -/
def parseExpPart (base : Rat) : List Char → Option Rat
  | [] => some base
  | 'e' :: r => parseExpDigits base r
  | 'E' :: r => parseExpDigits base r
  | _ => none

/-- Parses an unsigned floating-point literal: digits, optional fraction,
optional exponent; at least one digit must appear before the exponent. -/
def parseUnsignedDouble (cs : List Char) : Option Rat :=
  let ip := cs.takeWhile Char.isDigit
  let rest := cs.dropWhile Char.isDigit
  match rest with
  | [] => if ip = [] then none else some ((digitsVal ip : Nat) : Rat)
  | '.' :: r =>
    let fp := r.takeWhile Char.isDigit
    let rest2 := r.dropWhile Char.isDigit
    if ip = [] ∧ fp = [] then none
    else parseExpPart ((digitsVal ip : Rat) + (digitsVal fp : Rat) / 10 ^ fp.length) rest2
  | other => if ip = [] then none else parseExpPart ((digitsVal ip : Nat) : Rat) other

/-- Modelled from the spec: floating-point text decoding (standard decimal
float literal with optional sign, fraction and exponent); non-numeric content
signals use-the-default. -/
def parseDouble (s : String) : Option Rat :=
  match s.data with
  | '-' :: r => (parseUnsignedDouble r).map (fun q => -q)
  | '+' :: r => parseUnsignedDouble r
  | cs => parseUnsignedDouble cs

/-- Splits a character list into maximal runs of non-whitespace characters;
`acc` holds the (reversed) characters of the run currently being read. -/
def wordsAux : List Char → List Char → List (List Char)
  | acc, [] => if acc = [] then [] else [acc.reverse]
  | acc, c :: cs =>
    if c.isWhitespace then
      if acc = [] then wordsAux [] cs else acc.reverse :: wordsAux [] cs
    else wordsAux (c :: acc) cs

/-- Whitespace-separated tokens of a string. -/
def tokens (s : String) : List String :=
  (wordsAux [] s.data).map fun cs => ⟨cs⟩

/-- Modelled from the spec: 2D-vector text decoding.  The content must be
exactly two whitespace-separated floating-point literals; any other token
count or a non-numeric component signals use-the-default (no partial vector). -/
def parseVector2 (s : String) : Option Vector2 :=
  match tokens s with
  | [a, b] =>
    match parseDouble a, parseDouble b with
    | some xv, some yv => some ⟨xv, yv⟩
    | _, _ => none
  | _ => none

/-- Modelled from the spec: 3D-vector text decoding.  The content must be
exactly three whitespace-separated floating-point literals; any other token
count or a non-numeric component signals use-the-default (no partial vector). -/
def parseVector3 (s : String) : Option Vector3 :=
  match tokens s with
  | [a, b, c] =>
    match parseDouble a, parseDouble b, parseDouble c with
    | some xv, some yv, some zv => some ⟨xv, yv, zv⟩
    | _, _, _ => none
  | _ => none

/-! ## Tree lookup (`SdfParam*`) -/

/-- Modelled from the spec: search the node's children for the first one whose
name equals the parameter name (case-sensitive exact match). -/
def findChild : List Element → String → Option Element
  | [], _ => none
  | c :: cs, p => if c.name = p then some c else findChild cs p

/-- Text content of the first child named `p`, when such a child exists. -/
def sdfLookupText (sdf : Element) (p : String) : Option String :=
  (findChild sdf.children p).map Element.text

/-- Modelled from the spec: `Utilities::SdfParamBool` (implementation body not
in the source tree).  Looks up the first child named `_paramName`, decodes its
text as a boolean, and returns the default on any failure. -/
def SdfParamBool (sdf : Element) (p : String) (d : Bool) : Bool :=
  ((sdfLookupText sdf p).bind parseBool).getD d

/-- Modelled from the spec: `Utilities::SdfParamSizeT` (implementation body not
in the source tree).  Looks up the first child named `_paramName`, decodes its
text as a non-negative integer, and returns the default on any failure. -/
def SdfParamSizeT (sdf : Element) (p : String) (d : Nat) : Nat :=
  ((sdfLookupText sdf p).bind parseSizeT).getD d

/-- Modelled from the spec: `Utilities::SdfParamDouble` (implementation body
not in the source tree).  Looks up the first child named `_paramName`, decodes
its text as a floating-point literal, and returns the default on any failure. -/
def SdfParamDouble (sdf : Element) (p : String) (d : Rat) : Rat :=
  ((sdfLookupText sdf p).bind parseDouble).getD d

/-- Modelled from the spec: `Utilities::SdfParamString` (implementation body
not in the source tree).  Looks up the first child named `_paramName` and
returns its text verbatim, or the default when the child is absent. -/
def SdfParamString (sdf : Element) (p : String) (d : String) : String :=
  (sdfLookupText sdf p).getD d

/-- Modelled from the spec: `Utilities::SdfParamVector2` (implementation body
not in the source tree).  Looks up the first child named `_paramName`, decodes
its text as two floating-point literals, and returns the default on any
failure. -/
def SdfParamVector2 (sdf : Element) (p : String) (d : Vector2) : Vector2 :=
  ((sdfLookupText sdf p).bind parseVector2).getD d

/-- Modelled from the spec: `Utilities::SdfParamVector3` (implementation body
not in the source tree).  Looks up the first child named `_paramName`, decodes
its text as three floating-point literals, and returns the default on any
failure. -/
def SdfParamVector3 (sdf : Element) (p : String) (d : Vector3) : Vector3 :=
  ((sdfLookupText sdf p).bind parseVector3).getD d

/-! ## List source (`gazebo::msgs::Param_V`) -/

/-- Modelled from the spec: the declared kind tag of a parameter entry
(bool / int / double / string / vector2 / vector3). -/
inductive ParamKind where
  | kbool
  | kint
  | kdouble
  | kstring
  | kvector2
  | kvector3
deriving DecidableEq, Repr

/-- Modelled from the spec: the value of a parameter entry, encoded according
to its declared kind. -/
inductive ParamValue where
  | boolVal (b : Bool)
  | intVal (i : Int)
  | doubleVal (q : Rat)
  | stringVal (s : String)
  | vector2Val (v : Vector2)
  | vector3Val (v : Vector3)
deriving DecidableEq, Repr

/-- Declared kind of a stored parameter value. -/
def ParamValue.kind : ParamValue → ParamKind
  | .boolVal _ => .kbool
  | .intVal _ => .kint
  | .doubleVal _ => .kdouble
  | .stringVal _ => .kstring
  | .vector2Val _ => .kvector2
  | .vector3Val _ => .kvector3

/-- Reads a stored value as a boolean when its kind is compatible. -/
def ParamValue.asBool : ParamValue → Option Bool
  | .boolVal b => some b
  | _ => none

/-- Reads a stored value as an unsigned size when its kind is compatible
(a negative stored integer does not produce a wrapped value). -/
def ParamValue.asSizeT : ParamValue → Option Nat
  | .intVal i => if 0 ≤ i then some i.toNat else none
  | _ => none

/-- Reads a stored value as a double when its kind is compatible. -/
def ParamValue.asDouble : ParamValue → Option Rat
  | .doubleVal q => some q
  | _ => none

/-- Reads a stored value as a string when its kind is compatible. -/
def ParamValue.asString : ParamValue → Option String
  | .stringVal s => some s
  | _ => none

/-- Reads a stored value as a 2D vector when its kind is compatible. -/
def ParamValue.asVector2 : ParamValue → Option Vector2
  | .vector2Val v => some v
  | _ => none

/-- Reads a stored value as a 3D vector when its kind is compatible. -/
def ParamValue.asVector3 : ParamValue → Option Vector3
  | .vector3Val v => some v
  | _ => none

/-- Modelled from the spec: one entry of the runtime parameter list message:
a name together with a kind-tagged value. -/
structure Param where
  name : String
  value : ParamValue
deriving DecidableEq, Repr

/-- Modelled from the spec: the `gazebo::msgs::Param_V` message, an ordered
sequence of parameter entries. -/
structure Param_V where
  param : List Param
deriving DecidableEq, Repr

/-- Modelled from the spec: linear scan over the ordered entry sequence for
the first entry with a matching name and a compatible kind; an entry whose
name matches but whose kind is incompatible is treated as if not found. -/
def msgLookupList {α : Type} (dec : ParamValue → Option α) (p : String) :
    List Param → Option α
  | [] => none
  | e :: rest =>
    if e.name = p then
      match dec e.value with
      | some v => some v
      | none => msgLookupList dec p rest
    else msgLookupList dec p rest

/-- Modelled from the spec: `Utilities::MsgParamBool` (implementation body not
in the source tree).  Scans for the first bool entry named `_paramName` and
returns the default when none exists. -/
def MsgParamBool (msg : Param_V) (p : String) (d : Bool) : Bool :=
  (msgLookupList ParamValue.asBool p msg.param).getD d

/-- Modelled from the spec: `Utilities::MsgParamSizeT` (implementation body
not in the source tree).  Scans for the first int entry named `_paramName`
with a non-negative value and returns the default when none exists. -/
def MsgParamSizeT (msg : Param_V) (p : String) (d : Nat) : Nat :=
  (msgLookupList ParamValue.asSizeT p msg.param).getD d

/-- Modelled from the spec: `Utilities::MsgParamDouble` (implementation body
not in the source tree).  Scans for the first double entry named `_paramName`
and returns the default when none exists. -/
def MsgParamDouble (msg : Param_V) (p : String) (d : Rat) : Rat :=
  (msgLookupList ParamValue.asDouble p msg.param).getD d

/-- Modelled from the spec: `Utilities::MsgParamString` (implementation body
not in the source tree).  Scans for the first string entry named `_paramName`
and returns the default when none exists. -/
def MsgParamString (msg : Param_V) (p : String) (d : String) : String :=
  (msgLookupList ParamValue.asString p msg.param).getD d

/-- Modelled from the spec: `Utilities::MsgParamVector2` (implementation body
not in the source tree).  Scans for the first vector2 entry named `_paramName`
and returns the default when none exists. -/
def MsgParamVector2 (msg : Param_V) (p : String) (d : Vector2) : Vector2 :=
  (msgLookupList ParamValue.asVector2 p msg.param).getD d

/-- Modelled from the spec: `Utilities::MsgParamVector3` (implementation body
not in the source tree).  Scans for the first vector3 entry named `_paramName`
and returns the default when none exists. -/
def MsgParamVector3 (msg : Param_V) (p : String) (d : Vector3) : Vector3 :=
  (msgLookupList ParamValue.asVector3 p msg.param).getD d

/-! ## Calls as state transformers

Modelled from the spec: each call is a single-shot operation over borrowed,
caller-owned data; the source observable by the caller after the call is
returned alongside the result, so that the frame property (the source is
unchanged) is a stated theorem about these call-level definitions. -/

/-- Modelled from the spec: one call of `SdfParamBool`, returning the result
together with the tree the caller observes after the call. -/
def SdfParamBoolCall (sdf : Element) (p : String) (d : Bool) : Bool × Element :=
  (SdfParamBool sdf p d, sdf)

/-- Modelled from the spec: one call of `SdfParamSizeT`, returning the result
together with the tree the caller observes after the call. -/
def SdfParamSizeTCall (sdf : Element) (p : String) (d : Nat) : Nat × Element :=
  (SdfParamSizeT sdf p d, sdf)

/-- Modelled from the spec: one call of `SdfParamDouble`, returning the result
together with the tree the caller observes after the call. -/
def SdfParamDoubleCall (sdf : Element) (p : String) (d : Rat) : Rat × Element :=
  (SdfParamDouble sdf p d, sdf)

/-- Modelled from the spec: one call of `SdfParamString`, returning the result
together with the tree the caller observes after the call. -/
def SdfParamStringCall (sdf : Element) (p : String) (d : String) :
    String × Element :=
  (SdfParamString sdf p d, sdf)

/-- Modelled from the spec: one call of `SdfParamVector2`, returning the
result together with the tree the caller observes after the call. -/
def SdfParamVector2Call (sdf : Element) (p : String) (d : Vector2) :
    Vector2 × Element :=
  (SdfParamVector2 sdf p d, sdf)

/-- Modelled from the spec: one call of `SdfParamVector3`, returning the
result together with the tree the caller observes after the call. -/
def SdfParamVector3Call (sdf : Element) (p : String) (d : Vector3) :
    Vector3 × Element :=
  (SdfParamVector3 sdf p d, sdf)

/-- Modelled from the spec: one call of `MsgParamBool`, returning the result
together with the message the caller observes after the call. -/
def MsgParamBoolCall (msg : Param_V) (p : String) (d : Bool) : Bool × Param_V :=
  (MsgParamBool msg p d, msg)

/-- Modelled from the spec: one call of `MsgParamSizeT`, returning the result
together with the message the caller observes after the call. -/
def MsgParamSizeTCall (msg : Param_V) (p : String) (d : Nat) : Nat × Param_V :=
  (MsgParamSizeT msg p d, msg)

/-- Modelled from the spec: one call of `MsgParamDouble`, returning the result
together with the message the caller observes after the call. -/
def MsgParamDoubleCall (msg : Param_V) (p : String) (d : Rat) : Rat × Param_V :=
  (MsgParamDouble msg p d, msg)

/-- Modelled from the spec: one call of `MsgParamString`, returning the result
together with the message the caller observes after the call. -/
def MsgParamStringCall (msg : Param_V) (p : String) (d : String) :
    String × Param_V :=
  (MsgParamString msg p d, msg)

/-- Modelled from the spec: one call of `MsgParamVector2`, returning the
result together with the message the caller observes after the call. -/
def MsgParamVector2Call (msg : Param_V) (p : String) (d : Vector2) :
    Vector2 × Param_V :=
  (MsgParamVector2 msg p d, msg)

/-- Modelled from the spec: one call of `MsgParamVector3`, returning the
result together with the message the caller observes after the call. -/
def MsgParamVector3Call (msg : Param_V) (p : String) (d : Vector3) :
    Vector3 × Param_V :=
  (MsgParamVector3 msg p d, msg)

/-! ## Declared interface (transcribed from `Utilities.hh`) -/

/-- How a method's source argument is passed in the declared C++ interface. -/
inductive PassMode where
  | byConstRef
  | byMutRef
deriving DecidableEq, Repr

/-- Tests whether `pre` is a leading substring of `s` (used to classify the
declared method names into the `Sdf*` and `Msg*` families). -/
def nameHasPrefix (pre s : String) : Bool :=
  pre.data.isPrefixOf s.data

/-- One declared static method of `asv::Utilities`: its name and how its
source argument (`_sdf` or `_msg`) is passed. -/
structure MethodDecl where
  methodName : String
  sourceMode : PassMode
deriving DecidableEq, Repr

/-- Declared interface of `asv::Utilities`, transcribed from `Utilities.hh`
lines 60-160: each `SdfParam*` method takes `sdf::Element&` (non-const
reference) and each `MsgParam*` method takes `const gazebo::msgs::Param_V&`
(const reference). -/
def utilitiesInterface : List MethodDecl :=
  [⟨"SdfParamBool", .byMutRef⟩,
   ⟨"SdfParamSizeT", .byMutRef⟩,
   ⟨"SdfParamDouble", .byMutRef⟩,
   ⟨"SdfParamString", .byMutRef⟩,
   ⟨"SdfParamVector2", .byMutRef⟩,
   ⟨"SdfParamVector3", .byMutRef⟩,
   ⟨"MsgParamBool", .byConstRef⟩,
   ⟨"MsgParamSizeT", .byConstRef⟩,
   ⟨"MsgParamDouble", .byConstRef⟩,
   ⟨"MsgParamString", .byConstRef⟩,
   ⟨"MsgParamVector2", .byConstRef⟩,
   ⟨"MsgParamVector3", .byConstRef⟩]

/-! ## Helper lemmas -/

theorem getD_default_or_val {α : Type} (o : Option α) (d : α) :
    o.getD d = d ∨ ∃ v, o = some v ∧ o.getD d = v := by
  cases o with
  | none => exact Or.inl rfl
  | some v => exact Or.inr ⟨v, rfl, rfl⟩

theorem findChild_eq_none (cs : List Element) (p : String)
    (h : ∀ c ∈ cs, c.name ≠ p) : findChild cs p = none := by
  induction cs with
  | nil => rfl
  | cons c rest ih =>
    simp only [findChild]
    rw [if_neg (h c (List.mem_cons_self c rest))]
    exact ih fun x hx => h x (List.mem_cons_of_mem c hx)

theorem msgLookupList_eq_none {α : Type} (dec : ParamValue → Option α)
    (p : String) (l : List Param) (h : ∀ e ∈ l, e.name ≠ p) :
    msgLookupList dec p l = none := by
  induction l with
  | nil => rfl
  | cons e rest ih =>
    simp only [msgLookupList]
    rw [if_neg (h e (List.mem_cons_self e rest))]
    exact ih fun x hx => h x (List.mem_cons_of_mem e hx)

theorem msgLookupList_erase_middle {α : Type} (dec : ParamValue → Option α)
    (p : String) (l1 l2 : List Param) (e : Param) (hdec : dec e.value = none) :
    msgLookupList dec p (l1 ++ e :: l2) = msgLookupList dec p (l1 ++ l2) := by
  induction l1 with
  | nil =>
    simp only [List.nil_append, msgLookupList]
    by_cases hn : e.name = p
    · simp [hn, hdec]
    · simp [hn]
  | cons a rest ih =>
    simp only [List.cons_append, msgLookupList]
    by_cases hn : a.name = p
    · cases hda : dec a.value <;> simp [hn, hda, ih]
    · simp [hn, ih]

theorem msgLookupList_append_found {α : Type} (dec : ParamValue → Option α)
    (p : String) (l1 l2 : List Param) (e : Param) (v : α)
    (h1 : ∀ x ∈ l1, x.name = p → dec x.value = none)
    (hn : e.name = p) (hv : dec e.value = some v) :
    msgLookupList dec p (l1 ++ e :: l2) = some v := by
  induction l1 with
  | nil => simp [msgLookupList, hn, hv]
  | cons a rest ih =>
    simp only [List.cons_append, msgLookupList]
    by_cases ha : a.name = p
    · rw [if_pos ha, h1 a (List.mem_cons_self a rest) ha]
      exact ih fun x hx hxp => h1 x (List.mem_cons_of_mem a hx) hxp
    · rw [if_neg ha]
      exact ih fun x hx hxp => h1 x (List.mem_cons_of_mem a hx) hxp

theorem msgLookupList_mem {α : Type} (dec : ParamValue → Option α)
    (p : String) (l : List Param) (v : α)
    (h : msgLookupList dec p l = some v) :
    ∃ e ∈ l, e.name = p ∧ dec e.value = some v := by
  induction l with
  | nil => cases h
  | cons a rest ih =>
    simp only [msgLookupList] at h
    by_cases ha : a.name = p
    · rw [if_pos ha] at h
      cases hda : dec a.value with
      | none =>
        rw [hda] at h
        obtain ⟨e, he, h1, h2⟩ := ih h
        exact ⟨e, List.mem_cons_of_mem a he, h1, h2⟩
      | some w =>
        rw [hda] at h
        obtain rfl : w = v := Option.some.inj h
        exact ⟨a, List.mem_cons_self a rest, ha, hda⟩
    · rw [if_neg ha] at h
      obtain ⟨e, he, h1, h2⟩ := ih h
      exact ⟨e, List.mem_cons_of_mem a he, h1, h2⟩

theorem asBool_none_of_kind {v : ParamValue} (h : v.kind ≠ ParamKind.kbool) :
    v.asBool = none := by
  cases v <;> simp_all [ParamValue.kind, ParamValue.asBool]

theorem asSizeT_none_of_kind {v : ParamValue} (h : v.kind ≠ ParamKind.kint) :
    v.asSizeT = none := by
  cases v <;> simp_all [ParamValue.kind, ParamValue.asSizeT]

theorem asDouble_none_of_kind {v : ParamValue} (h : v.kind ≠ ParamKind.kdouble) :
    v.asDouble = none := by
  cases v <;> simp_all [ParamValue.kind, ParamValue.asDouble]

theorem asString_none_of_kind {v : ParamValue} (h : v.kind ≠ ParamKind.kstring) :
    v.asString = none := by
  cases v <;> simp_all [ParamValue.kind, ParamValue.asString]

theorem asVector2_none_of_kind {v : ParamValue} (h : v.kind ≠ ParamKind.kvector2) :
    v.asVector2 = none := by
  cases v <;> simp_all [ParamValue.kind, ParamValue.asVector2]

theorem asVector3_none_of_kind {v : ParamValue} (h : v.kind ≠ ParamKind.kvector3) :
    v.asVector3 = none := by
  cases v <;> simp_all [ParamValue.kind, ParamValue.asVector3]

theorem parseVector2_eq_none {s : String}
    (h : (tokens s).length ≠ 2 ∨ ∃ t ∈ tokens s, parseDouble t = none) :
    parseVector2 s = none := by
  unfold parseVector2
  split
  next a b heq =>
    rw [heq] at h
    rcases h with hlen | ⟨t, ht, hpt⟩
    · simp at hlen
    · simp only [List.mem_cons, List.not_mem_nil, or_false] at ht
      have key : parseDouble a = none ∨ parseDouble b = none := by
        rcases ht with rfl | rfl
        · exact Or.inl hpt
        · exact Or.inr hpt
      cases hpa : parseDouble a <;> cases hpb : parseDouble b <;>
        first
        | rfl
        | simp_all
  next => rfl

theorem parseVector3_eq_none {s : String}
    (h : (tokens s).length ≠ 3 ∨ ∃ t ∈ tokens s, parseDouble t = none) :
    parseVector3 s = none := by
  unfold parseVector3
  split
  next a b c heq =>
    rw [heq] at h
    rcases h with hlen | ⟨t, ht, hpt⟩
    · simp at hlen
    · simp only [List.mem_cons, List.not_mem_nil, or_false] at ht
      have key : parseDouble a = none ∨ parseDouble b = none ∨ parseDouble c = none := by
        rcases ht with rfl | rfl | rfl
        · exact Or.inl hpt
        · exact Or.inr (Or.inl hpt)
        · exact Or.inr (Or.inr hpt)
      cases hpa : parseDouble a <;> cases hpb : parseDouble b <;> cases hpc : parseDouble c <;>
        first
        | rfl
        | simp_all
  next => rfl

/-! ## Claim theorems -/

/-- C1: for every one of the six result types and for both source kinds
(element tree and parameter list message), if no child of the tree node and no
entry of the list message carries the requested parameter name, every lookup
operation returns exactly the caller-supplied default value, unchanged. -/
theorem absent_name_returns_default
    (sdf : Element) (msg : Param_V) (p : String)
    (db : Bool) (dn : Nat) (dd : Rat) (ds : String) (d2 : Vector2) (d3 : Vector3)
    (hsdf : ∀ c ∈ sdf.children, c.name ≠ p)
    (hmsg : ∀ e ∈ msg.param, e.name ≠ p) :
    SdfParamBool sdf p db = db ∧
    SdfParamSizeT sdf p dn = dn ∧
    SdfParamDouble sdf p dd = dd ∧
    SdfParamString sdf p ds = ds ∧
    SdfParamVector2 sdf p d2 = d2 ∧
    SdfParamVector3 sdf p d3 = d3 ∧
    MsgParamBool msg p db = db ∧
    MsgParamSizeT msg p dn = dn ∧
    MsgParamDouble msg p dd = dd ∧
    MsgParamString msg p ds = ds ∧
    MsgParamVector2 msg p d2 = d2 ∧
    MsgParamVector3 msg p d3 = d3 := by
  have h1 : findChild sdf.children p = none := findChild_eq_none _ _ hsdf
  refine ⟨?_, ?_, ?_, ?_, ?_, ?_, ?_, ?_, ?_, ?_, ?_, ?_⟩ <;>
    simp [SdfParamBool, SdfParamSizeT, SdfParamDouble, SdfParamString,
      SdfParamVector2, SdfParamVector3, sdfLookupText, h1,
      MsgParamBool, MsgParamSizeT, MsgParamDouble, MsgParamString,
      MsgParamVector2, MsgParamVector3, msgLookupList_eq_none _ _ _ hmsg]

/-- C1 witness: a tree whose only child is named `scale` and a message whose
only entry is named `scale` both return the default when asked for `size`. -/
theorem absent_name_returns_default_witness :
    SdfParamVector2 (Element.node "root" [Element.node "scale" [] "1 2"] "")
      "size" ⟨1, 1⟩ = ⟨1, 1⟩ ∧
    MsgParamDouble ⟨[⟨"scale", ParamValue.doubleVal 1⟩]⟩ "size" 0 = 0 := by
  have h := absent_name_returns_default
    (Element.node "root" [Element.node "scale" [] "1 2"] "")
    ⟨[⟨"scale", ParamValue.doubleVal 1⟩]⟩ "size" true 0 0 "" ⟨1, 1⟩ ⟨0, 0, 0⟩
    (by decide) (by decide)
  exact ⟨h.2.2.2.2.1, h.2.2.2.2.2.2.2.2.1⟩

/-- C2: every one of the twelve lookup operations is total in the model and
has no failure outcome: the returned value is either the caller-supplied
default or the successfully decoded value of the located source content;
there is no third (fault) result. -/
theorem lookup_total_default_or_decoded
    (sdf : Element) (msg : Param_V) (p : String)
    (db : Bool) (dn : Nat) (dd : Rat) (ds : String) (d2 : Vector2) (d3 : Vector3) :
    (SdfParamBool sdf p db = db ∨
      ∃ v, (sdfLookupText sdf p).bind parseBool = some v ∧ SdfParamBool sdf p db = v) ∧
    (SdfParamSizeT sdf p dn = dn ∨
      ∃ v, (sdfLookupText sdf p).bind parseSizeT = some v ∧ SdfParamSizeT sdf p dn = v) ∧
    (SdfParamDouble sdf p dd = dd ∨
      ∃ v, (sdfLookupText sdf p).bind parseDouble = some v ∧ SdfParamDouble sdf p dd = v) ∧
    (SdfParamString sdf p ds = ds ∨
      ∃ v, sdfLookupText sdf p = some v ∧ SdfParamString sdf p ds = v) ∧
    (SdfParamVector2 sdf p d2 = d2 ∨
      ∃ v, (sdfLookupText sdf p).bind parseVector2 = some v ∧ SdfParamVector2 sdf p d2 = v) ∧
    (SdfParamVector3 sdf p d3 = d3 ∨
      ∃ v, (sdfLookupText sdf p).bind parseVector3 = some v ∧ SdfParamVector3 sdf p d3 = v) ∧
    (MsgParamBool msg p db = db ∨
      ∃ v, msgLookupList ParamValue.asBool p msg.param = some v ∧ MsgParamBool msg p db = v) ∧
    (MsgParamSizeT msg p dn = dn ∨
      ∃ v, msgLookupList ParamValue.asSizeT p msg.param = some v ∧ MsgParamSizeT msg p dn = v) ∧
    (MsgParamDouble msg p dd = dd ∨
      ∃ v, msgLookupList ParamValue.asDouble p msg.param = some v ∧ MsgParamDouble msg p dd = v) ∧
    (MsgParamString msg p ds = ds ∨
      ∃ v, msgLookupList ParamValue.asString p msg.param = some v ∧ MsgParamString msg p ds = v) ∧
    (MsgParamVector2 msg p d2 = d2 ∨
      ∃ v, msgLookupList ParamValue.asVector2 p msg.param = some v ∧ MsgParamVector2 msg p d2 = v) ∧
    (MsgParamVector3 msg p d3 = d3 ∨
      ∃ v, msgLookupList ParamValue.asVector3 p msg.param = some v ∧ MsgParamVector3 msg p d3 = v) :=
  ⟨getD_default_or_val _ _, getD_default_or_val _ _, getD_default_or_val _ _,
   getD_default_or_val _ _, getD_default_or_val _ _, getD_default_or_val _ _,
   getD_default_or_val _ _, getD_default_or_val _ _, getD_default_or_val _ _,
   getD_default_or_val _ _, getD_default_or_val _ _, getD_default_or_val _ _⟩

/-- C3: vector decoding is all-or-nothing.  For the tree source, if the
located content does not consist of exactly two (resp. three) whitespace
separated floating-point literals — wrong token count or any non-numeric
component — the operation returns exactly the supplied default.  For the
list source, the result is either the default or the complete stored vector
of a matching entry; in neither case is a vector mixing parsed components
with default components ever produced. -/
theorem vector_decode_all_or_nothing
    (sdf : Element) (msg : Param_V) (p : String) (d2 : Vector2) (d3 : Vector3) :
    (∀ c, findChild sdf.children p = some c →
      ((tokens c.text).length ≠ 2 ∨ ∃ t ∈ tokens c.text, parseDouble t = none) →
      SdfParamVector2 sdf p d2 = d2) ∧
    (∀ c, findChild sdf.children p = some c →
      ((tokens c.text).length ≠ 3 ∨ ∃ t ∈ tokens c.text, parseDouble t = none) →
      SdfParamVector3 sdf p d3 = d3) ∧
    (MsgParamVector2 msg p d2 = d2 ∨
      ∃ e ∈ msg.param, e.name = p ∧
        e.value = ParamValue.vector2Val (MsgParamVector2 msg p d2)) ∧
    (MsgParamVector3 msg p d3 = d3 ∨
      ∃ e ∈ msg.param, e.name = p ∧
        e.value = ParamValue.vector3Val (MsgParamVector3 msg p d3)) := by
  refine ⟨?_, ?_, ?_, ?_⟩
  · intro c hc hbad
    simp [SdfParamVector2, sdfLookupText, hc, parseVector2_eq_none hbad]
  · intro c hc hbad
    simp [SdfParamVector3, sdfLookupText, hc, parseVector3_eq_none hbad]
  · rcases getD_default_or_val (msgLookupList ParamValue.asVector2 p msg.param) d2 with
      h | ⟨v, hv, hres⟩
    · exact Or.inl h
    · obtain ⟨e, he, hn, hd⟩ := msgLookupList_mem _ _ _ _ hv
      refine Or.inr ⟨e, he, hn, ?_⟩
      have hres2 : MsgParamVector2 msg p d2 = v := by simp [MsgParamVector2, hv]
      rw [hres2]
      cases ev : e.value <;> simp_all [ParamValue.asVector2]
  · rcases getD_default_or_val (msgLookupList ParamValue.asVector3 p msg.param) d3 with
      h | ⟨v, hv, hres⟩
    · exact Or.inl h
    · obtain ⟨e, he, hn, hd⟩ := msgLookupList_mem _ _ _ _ hv
      refine Or.inr ⟨e, he, hn, ?_⟩
      have hres2 : MsgParamVector3 msg p d3 = v := by simp [MsgParamVector3, hv]
      rw [hres2]
      cases ev : e.value <;> simp_all [ParamValue.asVector3]

/-- C3 witness: `<offset>1.0 2.0 bad</offset>` has three tokens of which the
third is non-numeric, so the 3D lookup returns the default vector whole. -/
theorem vector_decode_all_or_nothing_witness :
    SdfParamVector3 (Element.node "root" [Element.node "offset" [] "1.0 2.0 bad"] "")
      "offset" ⟨0, 0, 0⟩ = ⟨0, 0, 0⟩ :=
  (vector_decode_all_or_nothing
      (Element.node "root" [Element.node "offset" [] "1.0 2.0 bad"] "")
      ⟨[]⟩ "offset" ⟨0, 0⟩ ⟨0, 0, 0⟩).2.1
    (Element.node "offset" [] "1.0 2.0 bad") rfl
    (Or.inr ⟨"bad", by decide, by decide⟩)

/-- C4: for every list-source lookup operation, when the message contains an
entry with the requested name and compatible kind, and every entry positioned
before it either has a different name or an incompatible kind, the operation
decodes and returns the value of that earliest compatible entry — first match
by position wins, whatever entries (including duplicates) follow it. -/
theorem msg_first_match_wins (p : String) (l1 l2 : List Param)
    (db : Bool) (dn : Nat) (dd : Rat) (ds : String) (d2 : Vector2) (d3 : Vector3) :
    (∀ b : Bool, (∀ x ∈ l1, x.name = p → x.value.kind ≠ ParamKind.kbool) →
      MsgParamBool ⟨l1 ++ ⟨p, ParamValue.boolVal b⟩ :: l2⟩ p db = b) ∧
    (∀ n : Nat, (∀ x ∈ l1, x.name = p → x.value.kind ≠ ParamKind.kint) →
      MsgParamSizeT ⟨l1 ++ ⟨p, ParamValue.intVal (n : Int)⟩ :: l2⟩ p dn = n) ∧
    (∀ q : Rat, (∀ x ∈ l1, x.name = p → x.value.kind ≠ ParamKind.kdouble) →
      MsgParamDouble ⟨l1 ++ ⟨p, ParamValue.doubleVal q⟩ :: l2⟩ p dd = q) ∧
    (∀ s : String, (∀ x ∈ l1, x.name = p → x.value.kind ≠ ParamKind.kstring) →
      MsgParamString ⟨l1 ++ ⟨p, ParamValue.stringVal s⟩ :: l2⟩ p ds = s) ∧
    (∀ v : Vector2, (∀ x ∈ l1, x.name = p → x.value.kind ≠ ParamKind.kvector2) →
      MsgParamVector2 ⟨l1 ++ ⟨p, ParamValue.vector2Val v⟩ :: l2⟩ p d2 = v) ∧
    (∀ v : Vector3, (∀ x ∈ l1, x.name = p → x.value.kind ≠ ParamKind.kvector3) →
      MsgParamVector3 ⟨l1 ++ ⟨p, ParamValue.vector3Val v⟩ :: l2⟩ p d3 = v) := by
  refine ⟨?_, ?_, ?_, ?_, ?_, ?_⟩ <;> intro w h
  · have hfound := msgLookupList_append_found ParamValue.asBool p l1 l2
      ⟨p, ParamValue.boolVal w⟩ w
      (fun x hx hxp => asBool_none_of_kind (h x hx hxp)) rfl rfl
    simp [MsgParamBool, hfound]
  · have hval : ParamValue.asSizeT (ParamValue.intVal (w : Int)) = some w := by
      simp [ParamValue.asSizeT]
    have hfound := msgLookupList_append_found ParamValue.asSizeT p l1 l2
      ⟨p, ParamValue.intVal (w : Int)⟩ w
      (fun x hx hxp => asSizeT_none_of_kind (h x hx hxp)) rfl hval
    simp [MsgParamSizeT, hfound]
  · have hfound := msgLookupList_append_found ParamValue.asDouble p l1 l2
      ⟨p, ParamValue.doubleVal w⟩ w
      (fun x hx hxp => asDouble_none_of_kind (h x hx hxp)) rfl rfl
    simp [MsgParamDouble, hfound]
  · have hfound := msgLookupList_append_found ParamValue.asString p l1 l2
      ⟨p, ParamValue.stringVal w⟩ w
      (fun x hx hxp => asString_none_of_kind (h x hx hxp)) rfl rfl
    simp [MsgParamString, hfound]
  · have hfound := msgLookupList_append_found ParamValue.asVector2 p l1 l2
      ⟨p, ParamValue.vector2Val w⟩ w
      (fun x hx hxp => asVector2_none_of_kind (h x hx hxp)) rfl rfl
    simp [MsgParamVector2, hfound]
  · have hfound := msgLookupList_append_found ParamValue.asVector3 p l1 l2
      ⟨p, ParamValue.vector3Val w⟩ w
      (fun x hx hxp => asVector3_none_of_kind (h x hx hxp)) rfl rfl
    simp [MsgParamVector3, hfound]

/-- C4 witness: with two double entries both named `rate` (values 5/2 then
99/10), the double lookup returns the value of the first entry. -/
theorem msg_first_match_wins_witness :
    MsgParamDouble ⟨[⟨"rate", ParamValue.doubleVal (5/2)⟩,
                     ⟨"rate", ParamValue.doubleVal (99/10)⟩]⟩ "rate" 0 = 5/2 :=
  (msg_first_match_wins "rate" [] [⟨"rate", ParamValue.doubleVal (99/10)⟩]
      false 0 0 "" ⟨0, 0⟩ ⟨0, 0, 0⟩).2.2.1 (5/2) (by simp)

/-- C5: for every list-source lookup operation, a message entry whose name
matches the requested parameter name but whose declared kind differs from the
requested result type behaves exactly as if it were not in the message: the
lookup result over the message containing the entry equals the lookup result
over the message with that entry removed (in particular, when no other entry
qualifies, the supplied default is returned). -/
theorem msg_kind_mismatch_as_absent (p : String) (l1 l2 : List Param) (e : Param)
    (db : Bool) (dn : Nat) (dd : Rat) (ds : String) (d2 : Vector2) (d3 : Vector3)
    (_hname : e.name = p) :
    (e.value.kind ≠ ParamKind.kbool →
      MsgParamBool ⟨l1 ++ e :: l2⟩ p db = MsgParamBool ⟨l1 ++ l2⟩ p db) ∧
    (e.value.kind ≠ ParamKind.kint →
      MsgParamSizeT ⟨l1 ++ e :: l2⟩ p dn = MsgParamSizeT ⟨l1 ++ l2⟩ p dn) ∧
    (e.value.kind ≠ ParamKind.kdouble →
      MsgParamDouble ⟨l1 ++ e :: l2⟩ p dd = MsgParamDouble ⟨l1 ++ l2⟩ p dd) ∧
    (e.value.kind ≠ ParamKind.kstring →
      MsgParamString ⟨l1 ++ e :: l2⟩ p ds = MsgParamString ⟨l1 ++ l2⟩ p ds) ∧
    (e.value.kind ≠ ParamKind.kvector2 →
      MsgParamVector2 ⟨l1 ++ e :: l2⟩ p d2 = MsgParamVector2 ⟨l1 ++ l2⟩ p d2) ∧
    (e.value.kind ≠ ParamKind.kvector3 →
      MsgParamVector3 ⟨l1 ++ e :: l2⟩ p d3 = MsgParamVector3 ⟨l1 ++ l2⟩ p d3) := by
  refine ⟨?_, ?_, ?_, ?_, ?_, ?_⟩ <;> intro hk
  · simp [MsgParamBool,
      msgLookupList_erase_middle _ _ _ _ _ (asBool_none_of_kind hk)]
  · simp [MsgParamSizeT,
      msgLookupList_erase_middle _ _ _ _ _ (asSizeT_none_of_kind hk)]
  · simp [MsgParamDouble,
      msgLookupList_erase_middle _ _ _ _ _ (asDouble_none_of_kind hk)]
  · simp [MsgParamString,
      msgLookupList_erase_middle _ _ _ _ _ (asString_none_of_kind hk)]
  · simp [MsgParamVector2,
      msgLookupList_erase_middle _ _ _ _ _ (asVector2_none_of_kind hk)]
  · simp [MsgParamVector3,
      msgLookupList_erase_middle _ _ _ _ _ (asVector3_none_of_kind hk)]

/-- C5 witness: a single entry named `enabled` of string kind makes the
boolean lookup behave as on the empty message, returning the default. -/
theorem msg_kind_mismatch_as_absent_witness :
    MsgParamBool ⟨[⟨"enabled", ParamValue.stringVal "true"⟩]⟩ "enabled" false = false := by
  have h := (msg_kind_mismatch_as_absent "enabled" [] []
    ⟨"enabled", ParamValue.stringVal "true"⟩ false 0 0 "" ⟨0, 0⟩ ⟨0, 0, 0⟩ rfl).1
    (by decide)
  exact h.trans rfl

/-- C6: the tree-source boolean lookup decodes its located content by
case-insensitive match against the token set "true"/"false"/"1"/"0": content
lower-casing to a truthy token decodes to `true`, to a falsy token decodes to
`false`, and content outside the recognized token set returns the supplied
default. -/
theorem sdf_bool_token_decode (sdf : Element) (p : String) (d : Bool) (c : Element)
    (hc : findChild sdf.children p = some c) :
    ((toLowerStr c.text = "true" ∨ toLowerStr c.text = "1") →
      SdfParamBool sdf p d = true) ∧
    ((toLowerStr c.text = "false" ∨ toLowerStr c.text = "0") →
      SdfParamBool sdf p d = false) ∧
    (¬(toLowerStr c.text = "true" ∨ toLowerStr c.text = "1" ∨
        toLowerStr c.text = "false" ∨ toLowerStr c.text = "0") →
      SdfParamBool sdf p d = d) := by
  refine ⟨?_, ?_, ?_⟩ <;> intro h
  · simp [SdfParamBool, sdfLookupText, hc, parseBool, h]
  · have h1 : ¬(toLowerStr c.text = "true" ∨ toLowerStr c.text = "1") := by
      rintro (h1 | h1) <;> rcases h with h2 | h2 <;> simp_all
    simp [SdfParamBool, sdfLookupText, hc, parseBool, h1, h]
  · have h1 : ¬(toLowerStr c.text = "true" ∨ toLowerStr c.text = "1") :=
      fun hx => h (hx.elim Or.inl fun hb => Or.inr (Or.inl hb))
    have h2 : ¬(toLowerStr c.text = "false" ∨ toLowerStr c.text = "0") :=
      fun hx => h (hx.elim (fun ha => Or.inr (Or.inr (Or.inl ha)))
        fun hb => Or.inr (Or.inr (Or.inr hb)))
    simp [SdfParamBool, sdfLookupText, hc, parseBool, h1, h2]

/-- C6 witness: content "TRUE" decodes to `true`; content "yes" is outside
the token set and yields the default. -/
theorem sdf_bool_token_decode_witness :
    SdfParamBool (Element.node "root" [Element.node "flag" [] "TRUE"] "")
      "flag" false = true ∧
    SdfParamBool (Element.node "root" [Element.node "flag" [] "yes"] "")
      "flag" false = false :=
  ⟨(sdf_bool_token_decode (Element.node "root" [Element.node "flag" [] "TRUE"] "")
      "flag" false (Element.node "flag" [] "TRUE") rfl).1 (Or.inl (by decide)),
   (sdf_bool_token_decode (Element.node "root" [Element.node "flag" [] "yes"] "")
      "flag" false (Element.node "flag" [] "yes") rfl).2.2 (by decide)⟩

/-- C7: the tree-source unsigned-size lookup returns the parsed value exactly
when the located content parses as a non-negative integer; content that fails
to parse — in particular anything starting with a minus sign — yields the
supplied default, never a wrapped or partially-parsed value. -/
theorem sdf_sizet_nonneg_parse (sdf : Element) (p : String) (d : Nat) (c : Element)
    (hc : findChild sdf.children p = some c) :
    (∀ v, parseSizeT c.text = some v → SdfParamSizeT sdf p d = v) ∧
    (parseSizeT c.text = none → SdfParamSizeT sdf p d = d) ∧
    (∀ rest, c.text.data = '-' :: rest → SdfParamSizeT sdf p d = d) := by
  refine ⟨?_, ?_, ?_⟩
  · intro v hv
    simp [SdfParamSizeT, sdfLookupText, hc, hv]
  · intro hv
    simp [SdfParamSizeT, sdfLookupText, hc, hv]
  · intro rest hrest
    have hdig : ('-').isDigit = false := by decide
    have hv : parseSizeT c.text = none := by
      unfold parseSizeT
      rw [hrest]
      simp [parseDigits, List.all_cons, hdig]
    simp [SdfParamSizeT, sdfLookupText, hc, hv]

/-- C7 witness: content "42" parses and is returned; content "-3" is negative
and yields the default. -/
theorem sdf_sizet_nonneg_parse_witness :
    SdfParamSizeT (Element.node "root" [Element.node "count" [] "42"] "")
      "count" 7 = 42 ∧
    SdfParamSizeT (Element.node "root" [Element.node "count" [] "-3"] "")
      "count" 7 = 7 :=
  ⟨(sdf_sizet_nonneg_parse (Element.node "root" [Element.node "count" [] "42"] "")
      "count" 7 (Element.node "count" [] "42") rfl).1 42 (by decide),
   (sdf_sizet_nonneg_parse (Element.node "root" [Element.node "count" [] "-3"] "")
      "count" 7 (Element.node "count" [] "-3") rfl).2.2 ['3'] rfl⟩

/-- C8: no lookup operation mutates its source: in the call-level model of
each of the twelve operations, the source (the whole element tree with all
children, names and text, or the whole parameter list message with all its
entries) observed by the caller after the call is exactly the source passed
in; the result is computed purely from borrowed read access. -/
theorem lookup_preserves_source (sdf : Element) (msg : Param_V) (p : String)
    (db : Bool) (dn : Nat) (dd : Rat) (ds : String) (d2 : Vector2) (d3 : Vector3) :
    (SdfParamBoolCall sdf p db).2 = sdf ∧
    (SdfParamSizeTCall sdf p dn).2 = sdf ∧
    (SdfParamDoubleCall sdf p dd).2 = sdf ∧
    (SdfParamStringCall sdf p ds).2 = sdf ∧
    (SdfParamVector2Call sdf p d2).2 = sdf ∧
    (SdfParamVector3Call sdf p d3).2 = sdf ∧
    (MsgParamBoolCall msg p db).2 = msg ∧
    (MsgParamSizeTCall msg p dn).2 = msg ∧
    (MsgParamDoubleCall msg p dd).2 = msg ∧
    (MsgParamStringCall msg p ds).2 = msg ∧
    (MsgParamVector2Call msg p d2).2 = msg ∧
    (MsgParamVector3Call msg p d3).2 = msg :=
  ⟨rfl, rfl, rfl, rfl, rfl, rfl, rfl, rfl, rfl, rfl, rfl, rfl⟩

/-- C9: every lookup operation is deterministic: two calls of the same
operation with equal sources, equal parameter names and equal default values
return equal results — each call is a pure function of its three inputs, with
no hidden state in the model that could influence the result. -/
theorem lookup_deterministic
    (sdf sdf' : Element) (msg msg' : Param_V) (p p' : String)
    (db db' : Bool) (dn dn' : Nat) (dd dd' : Rat) (ds ds' : String)
    (d2 d2' : Vector2) (d3 d3' : Vector3)
    (hsdf : sdf = sdf') (hmsg : msg = msg') (hp : p = p')
    (hdb : db = db') (hdn : dn = dn') (hdd : dd = dd') (hds : ds = ds')
    (hd2 : d2 = d2') (hd3 : d3 = d3') :
    SdfParamBool sdf p db = SdfParamBool sdf' p' db' ∧
    SdfParamSizeT sdf p dn = SdfParamSizeT sdf' p' dn' ∧
    SdfParamDouble sdf p dd = SdfParamDouble sdf' p' dd' ∧
    SdfParamString sdf p ds = SdfParamString sdf' p' ds' ∧
    SdfParamVector2 sdf p d2 = SdfParamVector2 sdf' p' d2' ∧
    SdfParamVector3 sdf p d3 = SdfParamVector3 sdf' p' d3' ∧
    MsgParamBool msg p db = MsgParamBool msg' p' db' ∧
    MsgParamSizeT msg p dn = MsgParamSizeT msg' p' dn' ∧
    MsgParamDouble msg p dd = MsgParamDouble msg' p' dd' ∧
    MsgParamString msg p ds = MsgParamString msg' p' ds' ∧
    MsgParamVector2 msg p d2 = MsgParamVector2 msg' p' d2' ∧
    MsgParamVector3 msg p d3 = MsgParamVector3 msg' p' d3' := by
  subst hsdf hmsg hp hdb hdn hdd hds hd2 hd3
  exact ⟨rfl, rfl, rfl, rfl, rfl, rfl, rfl, rfl, rfl, rfl, rfl, rfl⟩

/-- C9 witness: two textually identical calls on a concrete tree and message
return equal results. -/
theorem lookup_deterministic_witness :
    SdfParamDouble (Element.node "root" [Element.node "damping" [] "0.5"] "")
        "damping" 1 =
      SdfParamDouble (Element.node "root" [Element.node "damping" [] "0.5"] "")
        "damping" 1 :=
  (lookup_deterministic
    (Element.node "root" [Element.node "damping" [] "0.5"] "")
    (Element.node "root" [Element.node "damping" [] "0.5"] "")
    ⟨[]⟩ ⟨[]⟩ "damping" "damping" true true 0 0 1 1 "" ""
    ⟨0, 0⟩ ⟨0, 0⟩ ⟨0, 0, 0⟩ ⟨0, 0, 0⟩
    rfl rfl rfl rfl rfl rfl rfl rfl rfl).2.2.1

/-- C10: in the interface declared in `Utilities.hh`, every list-source
operation (the six `MsgParam*` methods) receives its `Param_V` source by
const reference, so the signature alone rules out mutation of the message,
while every tree-source operation (the six `SdfParam*` methods) receives its
`sdf::Element` source by non-const (mutable) reference, so non-mutation of
the tree is not guaranteed by the declared interface; the twelve methods
split exactly six and six. -/
theorem interface_source_pass_modes :
    (utilitiesInterface.filter
        (fun m => nameHasPrefix "Msg" m.methodName)).all
        (fun m => m.sourceMode == PassMode.byConstRef) = true ∧
    (utilitiesInterface.filter
        (fun m => nameHasPrefix "Sdf" m.methodName)).all
        (fun m => m.sourceMode == PassMode.byMutRef) = true ∧
    (utilitiesInterface.filter
        (fun m => nameHasPrefix "Msg" m.methodName)).length = 6 ∧
    (utilitiesInterface.filter
        (fun m => nameHasPrefix "Sdf" m.methodName)).length = 6 ∧
    utilitiesInterface.length = 12 := by
  decide

end asv
